import Mathlib

/-!
Shallow embedding of the server-kit middleware pipeline
(crates server-kit, server-kit-auth, server-kit-grpc).

Requests and responses are modelled as records of a status, an
association list of (already lowercase-normalised) header key/value
pairs, and a fully materialised string body.  Each tower `Service::call`
becomes a Lean function from the request (plus the service's captured
state, passed explicitly) to the response; the inner service is an
explicit function argument, so "the inner service is not invoked" is
expressed as the result being independent of that argument.
-/

set_option autoImplicit false

/-- HTTP request: header association list plus a body. -/
structure Req where
  headers : List (String × String)
  body : String
deriving DecidableEq, Repr

/-- HTTP response: status code, headers, fully collected body. -/
structure Response where
  status : Nat
  headers : List (String × String)
  body : String
deriving DecidableEq, Repr

/-- Header lookup (first entry with the given key), mirroring
`HeaderMap::get` on lowercase-normalised names. -/
def getHeader (hs : List (String × String)) (k : String) : Option String :=
  (hs.find? (fun p => p.1 == k)).map (fun p => p.2)

/-- Removal of every entry with the given key. -/
def removeHeader (hs : List (String × String)) (k : String) : List (String × String) :=
  hs.filter (fun p => !(p.1 == k))

/-- Header insertion mirroring `HeaderMap::insert`: the new value replaces
any existing values for the key; other entries are untouched. -/
def setHeader (hs : List (String × String)) (k v : String) : List (String × String) :=
  (k, v) :: removeHeader hs k

/-- Substring test over character lists, mirroring Rust `str::contains`. -/
def listContains : List Char → List Char → Bool
  | _, [] => true
  | [], _ :: _ => false
  | c :: cs, needle => (needle.isPrefixOf (c :: cs)) || listContains cs needle

/-- Substring test on strings, mirroring Rust `str::contains`. -/
def strContains (hay needle : String) : Bool :=
  listContains hay.data needle.data

/-- Reason phrase of status 418, built without an apostrophe literal. -/
def teapotReason : String :=
  "I" ++ (Char.ofNat 39).toString ++ "m a teapot"

/-- Canonical reason phrases, mirroring `http::StatusCode::canonical_reason`
(the registered codes of the `http` crate; unregistered codes yield none). -/
def canonicalReason : Nat → Option String
  | 100 => some "Continue"
  | 101 => some "Switching Protocols"
  | 102 => some "Processing"
  | 200 => some "OK"
  | 201 => some "Created"
  | 202 => some "Accepted"
  | 203 => some "Non Authoritative Information"
  | 204 => some "No Content"
  | 205 => some "Reset Content"
  | 206 => some "Partial Content"
  | 207 => some "Multi-Status"
  | 208 => some "Already Reported"
  | 226 => some "IM Used"
  | 300 => some "Multiple Choices"
  | 301 => some "Moved Permanently"
  | 302 => some "Found"
  | 303 => some "See Other"
  | 304 => some "Not Modified"
  | 305 => some "Use Proxy"
  | 307 => some "Temporary Redirect"
  | 308 => some "Permanent Redirect"
  | 400 => some "Bad Request"
  | 401 => some "Unauthorized"
  | 402 => some "Payment Required"
  | 403 => some "Forbidden"
  | 404 => some "Not Found"
  | 405 => some "Method Not Allowed"
  | 406 => some "Not Acceptable"
  | 407 => some "Proxy Authentication Required"
  | 408 => some "Request Timeout"
  | 409 => some "Conflict"
  | 410 => some "Gone"
  | 411 => some "Length Required"
  | 412 => some "Precondition Failed"
  | 413 => some "Payload Too Large"
  | 414 => some "URI Too Long"
  | 415 => some "Unsupported Media Type"
  | 416 => some "Range Not Satisfiable"
  | 417 => some "Expectation Failed"
  | 418 => some teapotReason
  | 421 => some "Misdirected Request"
  | 422 => some "Unprocessable Entity"
  | 423 => some "Locked"
  | 424 => some "Failed Dependency"
  | 425 => some "Too Early"
  | 426 => some "Upgrade Required"
  | 428 => some "Precondition Required"
  | 429 => some "Too Many Requests"
  | 431 => some "Request Header Fields Too Large"
  | 451 => some "Unavailable For Legal Reasons"
  | 500 => some "Internal Server Error"
  | 501 => some "Not Implemented"
  | 502 => some "Bad Gateway"
  | 503 => some "Service Unavailable"
  | 504 => some "Gateway Timeout"
  | 505 => some "HTTP Version Not Supported"
  | 506 => some "Variant Also Negotiates"
  | 507 => some "Insufficient Storage"
  | 508 => some "Loop Detected"
  | 510 => some "Not Extended"
  | 511 => some "Network Authentication Required"
  | _ => none

/-- ASCII uppercase of one character (all reason phrases are ASCII, where
Rust `to_uppercase` agrees with this). -/
def asciiUpper (c : Char) : Char :=
  if 97 ≤ c.toNat ∧ c.toNat ≤ 122 then Char.ofNat (c.toNat - 32) else c

/-- ASCII lowercase of one character. -/
def asciiLower (c : Char) : Char :=
  if 65 ≤ c.toNat ∧ c.toNat ≤ 90 then Char.ofNat (c.toNat + 32) else c

/-- ASCII lowercase of a string, mirroring Rust `str::to_lowercase` on
the ASCII inputs compared against here. -/
def strLower (s : String) : String :=
  String.mk (s.data.map asciiLower)

/-- Error code from a status, mirroring `status_to_error_code` in
server-kit/src/error.rs: `canonical_reason().unwrap_or("ERROR")
.to_uppercase().replace(' ', "_")` (uppercasing a space keeps it a
space, so mapping each character directly is equivalent). -/
def status_to_error_code (status : Nat) : String :=
  String.mk (((canonicalReason status).getD "ERROR").data.map
    (fun c => if c = ' ' then '_' else asciiUpper c))

/-- Compact serde_json serialisation of the two-field error object
`ErrorResponse \x7b code, message \x7d` for strings needing no JSON
escaping (all strings produced by these layers are of that form). -/
def mkEnvelope (code message : String) : String :=
  "\x7b\"code\":\"" ++ code ++ "\",\"message\":\"" ++ message ++ "\"\x7d"

/-- Application environment, from server-kit/src/environment.rs. -/
inductive Environment where
  | Development
  | Production
deriving DecidableEq, Repr

/-- Mirror of `Environment::is_production`. -/
def Environment.is_production : Environment → Bool
  | .Production => true
  | .Development => false

/-- Mirror of `impl FromStr for Environment` (error type Infallible, so
the function is total): lowercase the input, map "production" and "prod"
to Production, everything else to Development. -/
def env_from_str (s : String) : Environment :=
  if strLower s = "production" ∨ strLower s = "prod" then .Production
  else .Development

/-- Mirror of `Environment::from_env`: APP_ENV, else RUST_ENV, parsed
(parsing never fails), defaulting to Development when both are unset.
The two environment-variable reads are passed in as options. -/
def Environment.from_env (appEnv rustEnv : Option String) : Environment :=
  match appEnv.or rustEnv with
  | some s => env_from_str s
  | none => .Development

/-! Authentication layer (server-kit-auth/src/layer.rs, error.rs). -/

/-- Authentication errors, from server-kit-auth/src/error.rs. -/
inductive AuthError where
  | MissingToken
  | InvalidToken (msg : String)
  | TokenExpired
  | Forbidden
deriving DecidableEq, Repr

/-- Status mapping of `impl IntoResponse for AuthError`: MissingToken,
InvalidToken and TokenExpired map to 401 UNAUTHORIZED, Forbidden to 403. -/
def AuthError.status : AuthError → Nat
  | .Forbidden => 403
  | _ => 401

/-- Display messages of `impl fmt::Display for AuthError`. -/
def AuthError.message : AuthError → String
  | .MissingToken => "Missing authorization token"
  | .InvalidToken msg => "Invalid token: " ++ msg
  | .TokenExpired => "Token has expired"
  | .Forbidden => "Insufficient permissions"

/-- Mirror of `impl IntoResponse for AuthError`: the status from the
mapping above, a JSON body with the status's canonical error code and the
display message, delivered by axum with content-type application/json. -/
def AuthError.into_response (e : AuthError) : Response :=
  { status := e.status
    headers := [("content-type", "application/json")]
    body := mkEnvelope (status_to_error_code e.status) e.message }

/-- Token extraction of `AuthService::call`: read the Authorization
header, strip the "Bearer " prefix; absence of the header, or a value not
starting with "Bearer ", gives none. -/
def extractToken (hs : List (String × String)) : Option String :=
  (getHeader hs "authorization").bind
    (fun v =>
      if "Bearer ".data.isPrefixOf v.data then some (String.mk (v.data.drop 7))
      else none)

/-- Mirror of `AuthService::call`: no token extracted yields
`MissingToken.into_response`; a validator failure yields that error's
response; success delegates the original request to the inner service.
The validator returns `some e` on failure, `none` on success
(`Result<(), AuthError>` in the source). -/
def AuthService.call (validate : String → Option AuthError)
    (inner : Req → Response) (req : Req) : Response :=
  match extractToken req.headers with
  | none => AuthError.MissingToken.into_response
  | some token =>
    match validate token with
    | some e => e.into_response
    | none => inner req

/-! Error-normalisation layer (server-kit/src/layer/json_error.rs). -/

/-- Mirror of `StatusCode::is_client_error`: 400..=499. -/
def isClientError (s : Nat) : Bool := 400 ≤ s && s ≤ 499

/-- Mirror of `StatusCode::is_server_error`: 500..=599. -/
def isServerError (s : Nat) : Bool := 500 ≤ s && s ≤ 599

/-- Content-type test of `JsonErrorService::call`: the content-type
header is present and contains "application/json". -/
def respIsJson (r : Response) : Bool :=
  match getHeader r.headers "content-type" with
  | some v => strContains v "application/json"
  | none => false

/-- Response transformation of `JsonErrorService::call` after the inner
service returned: non-4xx/5xx responses pass through unchanged; 4xx/5xx
responses whose content-type already contains application/json pass
through unchanged; any other 4xx/5xx response keeps its status, keeps its
original headers except that content-type is forced to application/json,
and gets an ErrorEnvelope body whose code comes from the status and whose
message is the original body text unless that text is empty or the
environment is Production, in which case it is the canonical reason
phrase (falling back to "Error"). -/
def jsonErrorTransform (env : Environment) (r : Response) : Response :=
  if !(isClientError r.status) && !(isServerError r.status) then r
  else if respIsJson r then r
  else
    let message :=
      if r.body = "" || env.is_production then (canonicalReason r.status).getD "Error"
      else r.body
    { status := r.status
      headers := setHeader r.headers "content-type" "application/json"
      body := mkEnvelope (status_to_error_code r.status) message }

/-- Mirror of `JsonErrorService::call`: delegate to the inner service,
then apply the response transformation. -/
def JsonErrorService.call (env : Environment) (inner : Req → Response)
    (req : Req) : Response :=
  jsonErrorTransform env (inner req)

/-! Rate-limiting layer (server-kit/src/layer/ratelimit.rs). -/

/-- Short-circuit response of `RateLimitService::call`: 429 with the
serde_json body code TOO_MANY_REQUESTS / message "Rate limit exceeded",
delivered by axum with content-type application/json. -/
def rateLimitResponse : Response :=
  { status := 429
    headers := [("content-type", "application/json")]
    body := mkEnvelope "TOO_MANY_REQUESTS" "Rate limit exceeded" }

/-- Mirror of `RateLimitService::call`, given the outcome of the shared
limiter's atomic `check()` (true when a token was withdrawn): on failure
return `rateLimitResponse` without touching the inner service, otherwise
delegate the request unchanged. -/
def RateLimitService.call (checkOk : Bool) (inner : Req → Response)
    (req : Req) : Response :=
  if checkOk then inner req else rateLimitResponse

/-- Modelled from the spec: the token bucket behind the external
`governor` crate's `RateLimiter::check` (spec section 4.4), within one
refill window (no elapsed refill). State is the number of remaining
tokens, initially the capacity; one call atomically withdraws one token
or fails when none remain. -/
def tryAcquire (tokens : Nat) : Bool × Nat :=
  match tokens with
  | 0 => (false, 0)
  | t + 1 => (true, t)

/-- One sequentialised interleaving of a burst of concurrent requests
through `RateLimitService::call` sharing one bucket: each request
performs the single atomic `tryAcquire` step, so every concurrent
schedule is equivalent to processing some ordering of the request list. -/
def serveBurst (inner : Req → Response) : List Req → Nat → List Response
  | [], _ => []
  | r :: rs, tokens =>
    let step := tryAcquire tokens
    RateLimitService.call step.1 inner r :: serveBurst inner rs step.2

/-- Number of 429 rejections in a list of responses. -/
def count429 (rs : List Response) : Nat :=
  rs.countP (fun r => r.status == 429)

/-- Number of admitted (non-429) responses in a list of responses. -/
def admittedCount (rs : List Response) : Nat :=
  rs.countP (fun r => !(r.status == 429))

/-! Request-identification layer
(server-kit-grpc/src/interceptor/request_id.rs). -/

/-- Mirror of `RequestIdService::call`: when the x-request-id header is
absent, insert a freshly generated identifier (the UUID-v4 draw is passed
in as `fresh`); otherwise leave the request untouched. Then delegate to
the inner service and return its response as is. -/
def RequestIdService.call (fresh : String) (inner : Req → Response)
    (req : Req) : Response :=
  let req2 :=
    if (getHeader req.headers "x-request-id").isNone then
      { req with headers := setHeader req.headers "x-request-id" fresh }
    else req
  inner req2

/-! Default pipeline composition (server-kit/src/layer/mod.rs). -/

/-- A service: one request in, one response out. -/
abbrev Svc : Type := Req → Response

/-- Tower layering semantics: `.layer(X)` wraps the current service in X,
so folding over the layers in the order they are added leaves the last
added layer outermost. -/
def applyStack (ls : List (Svc → Svc)) (s : Svc) : Svc :=
  ls.foldl (fun acc l => l acc) s

/-- The layers `default_layers` adds before the final JsonErrorLayer, in
addition order: CatchPanic, SetRequestId, PropagateRequestId,
DefaultTrace, Timeout, then (feature-gated) Compression and (feature- and
config-gated) CORS. The externally supplied layers are parameters. -/
def innerLayerStack (catchPanic setReqId propagate traceL timeoutL
    compressionL corsL : Svc → Svc) (compressionOn corsOn : Bool) :
    List (Svc → Svc) :=
  [catchPanic, setReqId, propagate, traceL, timeoutL]
    ++ (if compressionOn then [compressionL] else [])
    ++ (if corsOn then [corsL] else [])

/-- Mirror of `default_layers`: the inner stack in addition order,
followed by `JsonErrorLayer` added last (hence outermost). -/
def default_layers (catchPanic setReqId propagate traceL timeoutL
    compressionL corsL : Svc → Svc) (compressionOn corsOn : Bool)
    (env : Environment) (handler : Svc) : Svc :=
  applyStack
    (innerLayerStack catchPanic setReqId propagate traceL timeoutL
        compressionL corsL compressionOn corsOn
      ++ [JsonErrorService.call env])
    handler

/-- Mirror of `StatusCode::is_success` (the 2xx success range of the
spec's wording), used to compare the spec's pass-through condition with
the code's. -/
def isSuccess (s : Nat) : Bool := 200 ≤ s && s ≤ 299

/-! Helper lemmas about headers. -/

theorem find?_removeHeader (hs : List (String × String)) (k k' : String)
    (h : k' ≠ k) :
    (removeHeader hs k).find? (fun p => p.1 == k')
      = hs.find? (fun p => p.1 == k') := by
  induction hs with
  | nil => rfl
  | cons a tl ih =>
    simp only [removeHeader, List.filter_cons] at *
    by_cases hak : (a.1 == k) = true
    · have hk' : (a.1 == k') = false := by
        rw [beq_eq_false_iff_ne]
        intro hh
        exact h (hh ▸ beq_iff_eq.mp hak)
      simp [hak, hk', ih]
    · by_cases hk' : (a.1 == k') = true
      · simp [hak, hk']
      · simp only [Bool.not_eq_true] at hak hk'
        simp [hak, hk', ih]

theorem getHeader_setHeader_same (hs : List (String × String)) (k v : String) :
    getHeader (setHeader hs k v) k = some v := by
  simp [getHeader, setHeader]

theorem getHeader_setHeader_other (hs : List (String × String))
    (k v k' : String) (h : k' ≠ k) :
    getHeader (setHeader hs k v) k' = getHeader hs k' := by
  have hb : (k == k') = false := beq_eq_false_iff_ne.mpr (fun hh => h hh.symm)
  simp [getHeader, setHeader, hb, find?_removeHeader hs k k' h]

/-! Claim theorems. -/

/-- C1: a request whose Authorization header is absent or whose value
does not start with "Bearer " (token extraction yields none) gets the
MissingToken 401 response without the inner service being consulted, and
every validator failure short-circuits independently of the inner
service with status 403 for Forbidden and 401 for every other failure —
no other status is produced by the layer's short-circuits. -/
theorem auth_short_circuit_status_mapping
    (validate : String → Option AuthError) (inner inner2 : Req → Response)
    (req : Req) :
    (extractToken req.headers = none →
      AuthService.call validate inner req = AuthError.MissingToken.into_response ∧
      AuthService.call validate inner req = AuthService.call validate inner2 req ∧
      (AuthService.call validate inner req).status = 401) ∧
    (∀ token e, extractToken req.headers = some token → validate token = some e →
      AuthService.call validate inner req = e.into_response ∧
      AuthService.call validate inner req = AuthService.call validate inner2 req ∧
      (AuthService.call validate inner req).status =
        (if e = AuthError.Forbidden then 403 else 401)) := by
  constructor
  · intro h
    simp [AuthService.call, h, AuthError.into_response, AuthError.status]
  · intro token e htok hval
    refine ⟨by simp [AuthService.call, htok, hval], by simp [AuthService.call, htok, hval], ?_⟩
    simp only [AuthService.call, htok, hval]
    cases e <;> simp [AuthError.into_response, AuthError.status]

/-- Witness for C1 at concrete requests: a request with no headers gets
status 401, and a request bearing a token the validator rejects as
Forbidden gets status 403. -/
theorem auth_short_circuit_status_mapping_witness :
    (AuthService.call (fun _ => some AuthError.Forbidden)
        (fun _ => { status := 200, headers := [], body := "" })
        { headers := [], body := "" }).status = 401 ∧
    (AuthService.call (fun _ => some AuthError.Forbidden)
        (fun _ => { status := 200, headers := [], body := "" })
        { headers := [("authorization", "Bearer t")], body := "" }).status = 403 := by
  constructor
  · exact ((auth_short_circuit_status_mapping (fun _ => some AuthError.Forbidden)
      (fun _ => { status := 200, headers := [], body := "" })
      (fun _ => { status := 200, headers := [], body := "" })
      { headers := [], body := "" }).1 (by decide)).2.2
  · have h := ((auth_short_circuit_status_mapping (fun _ => some AuthError.Forbidden)
      (fun _ => { status := 200, headers := [], body := "" })
      (fun _ => { status := 200, headers := [], body := "" })
      { headers := [("authorization", "Bearer t")], body := "" }).2 "t"
      AuthError.Forbidden (by decide) rfl).2.2
    simpa using h

/-- C6: when token extraction succeeds and the validator accepts the
token, the layer's result is exactly the inner service applied to the
original, unmodified request. -/
theorem auth_success_forwards_unchanged
    (validate : String → Option AuthError) (inner : Req → Response)
    (req : Req) (token : String)
    (htok : extractToken req.headers = some token)
    (hval : validate token = none) :
    AuthService.call validate inner req = inner req := by
  simp [AuthService.call, htok, hval]

/-- Witness for C6 at a concrete request: an accepted token makes the
pipeline response equal the handler's own response. -/
theorem auth_success_forwards_unchanged_witness :
    AuthService.call (fun _ => none)
        (fun _ => { status := 200, headers := [], body := "hello" })
        { headers := [("authorization", "Bearer ok")], body := "b" }
      = { status := 200, headers := [], body := "hello" } := by
  exact auth_success_forwards_unchanged (fun _ => none)
    (fun _ => { status := 200, headers := [], body := "hello" })
    { headers := [("authorization", "Bearer ok")], body := "b" } "ok"
    (by decide) rfl

/-- C3: with no token available the rate-limit layer returns, for every
inner service, the fixed 429 response whose JSON body has code
TOO_MANY_REQUESTS and message "Rate limit exceeded"; with a token
available the request is forwarded to the inner service. -/
theorem ratelimit_short_circuit (inner : Req → Response) (req : Req) :
    RateLimitService.call false inner req = rateLimitResponse ∧
    rateLimitResponse.status = 429 ∧
    rateLimitResponse.body
      = "\x7b\"code\":\"TOO_MANY_REQUESTS\",\"message\":\"Rate limit exceeded\"\x7d" ∧
    RateLimitService.call true inner req = inner req := by
  refine ⟨rfl, rfl, rfl, rfl⟩

/-- C9: environment parsing is total — a string is parsed to Production
exactly when its (ASCII) lowercasing is "production" or "prod" and to
Development in every other case including the empty string; loading from
the APP_ENV/RUST_ENV pair yields Development whenever both are unset, and
Development is not production (so redaction is off). -/
theorem environment_parsing_total (s : String) (o : Option String) :
    (env_from_str s = Environment.Production ↔
      strLower s = "production" ∨ strLower s = "prod") ∧
    (env_from_str s = Environment.Development ↔
      ¬(strLower s = "production" ∨ strLower s = "prod")) ∧
    Environment.from_env (some s) o = env_from_str s ∧
    Environment.from_env none (some s) = env_from_str s ∧
    Environment.from_env none none = Environment.Development ∧
    env_from_str "" = Environment.Development ∧
    Environment.Development.is_production = false := by
  refine ⟨?_, ?_, rfl, rfl, rfl, by decide, rfl⟩
  · unfold env_from_str
    split <;> simp_all
  · unfold env_from_str
    split <;> simp_all

/-- C10: the request-identification layer decides on presence alone — a
present x-request-id header, even with an empty value, is left untouched
and the request forwarded as is; a fresh identifier is inserted only when
the key is entirely absent. -/
theorem request_id_presence_only (fresh : String) (inner : Req → Response)
    (req : Req) :
    (getHeader req.headers "x-request-id" = some "" →
      RequestIdService.call fresh inner req = inner req) ∧
    (∀ v, getHeader req.headers "x-request-id" = some v →
      RequestIdService.call fresh inner req = inner req) ∧
    (getHeader req.headers "x-request-id" = none →
      RequestIdService.call fresh inner req
        = inner { req with headers := setHeader req.headers "x-request-id" fresh }) := by
  refine ⟨fun h => ?_, fun v h => ?_, fun h => ?_⟩
  · simp [RequestIdService.call, h]
  · simp [RequestIdService.call, h]
  · simp [RequestIdService.call, h]

/-- Witness for C10 at a concrete request: an empty x-request-id value is
forwarded verbatim and no identifier is generated. -/
theorem request_id_presence_only_witness :
    RequestIdService.call "f81d4fae-7dec-11d0-a765-00a0c91e6bf6"
        (fun r => { status := 200, headers := r.headers, body := "" })
        { headers := [("x-request-id", "")], body := "" }
      = { status := 200, headers := [("x-request-id", "")], body := "" } := by
  exact (request_id_presence_only "f81d4fae-7dec-11d0-a765-00a0c91e6bf6"
    (fun r => { status := 200, headers := r.headers, body := "" })
    { headers := [("x-request-id", "")], body := "" }).1 (by decide)

/-- C2 counterexample: a 301 response with a plain-text body is outside
the 2xx success range and not JSON, yet the normalisation layer passes it
through unchanged instead of rebuilding its body as an ErrorEnvelope —
the code's pass-through condition is "not 4xx/5xx", not "2xx". -/
theorem json_error_non2xx_counterexample :
    jsonErrorTransform Environment.Development
        { status := 301, headers := [], body := "moved" }
      = { status := 301, headers := [], body := "moved" } ∧
    isSuccess 301 = false ∧
    respIsJson { status := 301, headers := [], body := "moved" } = false ∧
    ({ status := 301, headers := [], body := "moved" } : Response).body
      ≠ mkEnvelope (status_to_error_code 301) "moved" := by
  decide

/-- C2 amended: 2xx responses — and in fact every response outside the
4xx/5xx error range — pass through unchanged; 4xx/5xx responses whose
content-type already indicates JSON pass through unchanged; every other
4xx/5xx response keeps its status, has its body rebuilt as an
ErrorEnvelope whose code is the upper-snake reason phrase of the status
and whose message is the original body text unless that text is empty or
the environment is Production (then the canonical reason phrase), and
keeps all original headers except content-type, forced to JSON. -/
theorem json_error_normalization
    (env : Environment) (r : Response) :
    (isSuccess r.status = true → jsonErrorTransform env r = r) ∧
    ((isClientError r.status || isServerError r.status) = false →
      jsonErrorTransform env r = r) ∧
    ((isClientError r.status || isServerError r.status) = true →
      respIsJson r = true → jsonErrorTransform env r = r) ∧
    ((isClientError r.status || isServerError r.status) = true →
      respIsJson r = false →
      (jsonErrorTransform env r).status = r.status ∧
      (jsonErrorTransform env r).body
        = mkEnvelope (status_to_error_code r.status)
            (if r.body = "" || env.is_production then
              (canonicalReason r.status).getD "Error"
            else r.body) ∧
      getHeader (jsonErrorTransform env r).headers "content-type"
        = some "application/json" ∧
      (∀ k, k ≠ "content-type" →
        getHeader (jsonErrorTransform env r).headers k = getHeader r.headers k)) := by
  refine ⟨fun h => ?_, fun h => ?_, fun h hj => ?_, fun h hj => ?_⟩
  · have hc : isClientError r.status = false := by
      simp only [isSuccess, Bool.and_eq_true, decide_eq_true_eq] at h
      simp only [isClientError, Bool.and_eq_false_iff]
      left
      simpa using by omega
    have hs : isServerError r.status = false := by
      simp only [isSuccess, Bool.and_eq_true, decide_eq_true_eq] at h
      simp only [isServerError, Bool.and_eq_false_iff]
      left
      simpa using by omega
    simp [jsonErrorTransform, hc, hs]
  · simp only [Bool.or_eq_false_iff] at h
    simp [jsonErrorTransform, h.1, h.2]
  · simp only [Bool.or_eq_true] at h
    rcases h with h | h <;> simp [jsonErrorTransform, h, hj]
  · simp only [Bool.or_eq_true] at h
    have hcond : (!(isClientError r.status) && !(isServerError r.status)) = false := by
      rcases h with h | h <;> simp [h]
    refine ⟨?_, ?_, ?_, ?_⟩
    · simp [jsonErrorTransform, hcond, hj]
    · simp [jsonErrorTransform, hcond, hj]
    · simp [jsonErrorTransform, hcond, hj, getHeader_setHeader_same]
    · intro k hk
      simp [jsonErrorTransform, hcond, hj, getHeader_setHeader_other _ _ _ _ hk]

/-- Witness for C2's amended theorem at concrete responses: a 404 with a
plain-text body is rebuilt into the NOT_FOUND envelope carrying the
original text, and a 200 passes through unchanged. -/
theorem json_error_normalization_witness :
    (jsonErrorTransform Environment.Development
        { status := 404, headers := [], body := "missing" }).body
      = "\x7b\"code\":\"NOT_FOUND\",\"message\":\"missing\"\x7d" ∧
    jsonErrorTransform Environment.Development
        { status := 200, headers := [], body := "hello" }
      = { status := 200, headers := [], body := "hello" } := by
  constructor
  · have h := ((json_error_normalization Environment.Development
      { status := 404, headers := [], body := "missing" }).2.2.2
      (by decide) (by decide)).2.1
    rw [h]
    decide
  · exact (json_error_normalization Environment.Development
      { status := 200, headers := [], body := "hello" }).1 (by decide)

/-- C4 counterexample: the request-identification layer does not write
the identifier into the response — for a request without x-request-id and
an inner service whose response carries no headers, the layer's response
still has no x-request-id entry, although the claim requires the
generated identifier to be copied into the response metadata. -/
theorem request_id_no_response_copy_counterexample :
    getHeader (RequestIdService.call "f81d4fae-7dec-11d0-a765-00a0c91e6bf7"
        (fun _ => { status := 200, headers := [], body := "" })
        { headers := [], body := "" }).headers "x-request-id"
      = none := by
  decide

/-- C4 amended: when x-request-id is absent the layer inserts the freshly
generated identifier into the request metadata and delegates; when the
key is present its value is forwarded verbatim with the request left
unchanged; in both cases the layer returns the inner service's response
as is, without copying the identifier into the response metadata. -/
theorem request_id_request_side_only (fresh : String)
    (inner : Req → Response) (req : Req) :
    (getHeader req.headers "x-request-id" = none →
      RequestIdService.call fresh inner req
        = inner { req with headers := setHeader req.headers "x-request-id" fresh } ∧
      getHeader (setHeader req.headers "x-request-id" fresh) "x-request-id"
        = some fresh) ∧
    (∀ v, getHeader req.headers "x-request-id" = some v →
      RequestIdService.call fresh inner req = inner req) := by
  refine ⟨fun h => ⟨?_, getHeader_setHeader_same _ _ _⟩, fun v h => ?_⟩
  · simp [RequestIdService.call, h]
  · simp [RequestIdService.call, h]

/-- Witness for C4's amended theorem at a concrete request: a request
carrying x-request-id my-custom-id is forwarded verbatim. -/
theorem request_id_request_side_only_witness :
    RequestIdService.call "f81d4fae-7dec-11d0-a765-00a0c91e6bf8"
        (fun r => { status := 200, headers := r.headers, body := "" })
        { headers := [("x-request-id", "my-custom-id")], body := "" }
      = { status := 200, headers := [("x-request-id", "my-custom-id")], body := "" } := by
  exact (request_id_request_side_only "f81d4fae-7dec-11d0-a765-00a0c91e6bf8"
    (fun r => { status := 200, headers := r.headers, body := "" })
    { headers := [("x-request-id", "my-custom-id")], body := "" }).2
    "my-custom-id" (by decide)

/-- Fixed point of the normalisation on responses whose content-type was
already forced to application/json: in the error branch the transform
leaves them untouched. -/
theorem jsonErrorTransform_fixed_on_forced_json (env : Environment)
    (s : Nat) (hs : List (String × String)) (b : String)
    (hcond : (!(isClientError s) && !(isServerError s)) = false) :
    jsonErrorTransform env
        { status := s
          headers := setHeader hs "content-type" "application/json"
          body := b }
      = { status := s
          headers := setHeader hs "content-type" "application/json"
          body := b } := by
  have hjson : respIsJson
      { status := s
        headers := setHeader hs "content-type" "application/json"
        body := b } = true := by
    simp only [respIsJson, getHeader_setHeader_same]
    decide
  simp [jsonErrorTransform, hcond, hjson]

/-- C7: the error-normalisation transformation is idempotent — applied to
any response it has already produced (in particular an already-normalised
non-2xx JSON ErrorEnvelope response) it changes nothing, so running the
layer twice equals running it once. -/
theorem json_error_idempotent (env : Environment) (r : Response) :
    jsonErrorTransform env (jsonErrorTransform env r)
      = jsonErrorTransform env r := by
  by_cases h1 : (!(isClientError r.status) && !(isServerError r.status)) = true
  · simp [jsonErrorTransform, h1]
  · by_cases h2 : respIsJson r = true
    · simp only [Bool.not_eq_true] at h1
      simp [jsonErrorTransform, h1, h2]
    · simp only [Bool.not_eq_true] at h1 h2
      have hstep : jsonErrorTransform env r
          = { status := r.status
              headers := setHeader r.headers "content-type" "application/json"
              body := mkEnvelope (status_to_error_code r.status)
                (if r.body = "" || env.is_production then
                  (canonicalReason r.status).getD "Error"
                else r.body) } := by
        simp [jsonErrorTransform, h1, h2]
      rw [hstep]
      exact jsonErrorTransform_fixed_on_forced_json env r.status r.headers _
        (by simpa using h1)

/-- In any sequentialised order of a burst, the number of admitted
(non-429) responses is the minimum of the burst size and the available
tokens, provided the inner service itself never answers 429. -/
theorem serveBurst_admittedCount (inner : Req → Response)
    (h : ∀ r, (inner r).status ≠ 429) (reqs : List Req) (t : Nat) :
    admittedCount (serveBurst inner reqs t) = min reqs.length t := by
  induction reqs generalizing t with
  | nil => simp [serveBurst, admittedCount]
  | cons r rs ih =>
    cases t with
    | zero =>
      simp only [serveBurst, tryAcquire, RateLimitService.call,
        admittedCount, List.countP_cons] at *
      simp [rateLimitResponse, ih]
    | succ t' =>
      have hne : ((inner r).status == 429) = false :=
        beq_eq_false_iff_ne.mpr (h r)
      simp only [serveBurst, tryAcquire, RateLimitService.call,
        admittedCount, List.countP_cons] at *
      simp [hne, ih, Nat.succ_min_succ]

/-- In any sequentialised order of a burst, the number of 429 rejections
is the burst size minus the number of admissions. -/
theorem serveBurst_count429 (inner : Req → Response)
    (h : ∀ r, (inner r).status ≠ 429) (reqs : List Req) (t : Nat) :
    count429 (serveBurst inner reqs t) = reqs.length - min reqs.length t := by
  induction reqs generalizing t with
  | nil => simp [serveBurst, count429]
  | cons r rs ih =>
    cases t with
    | zero =>
      simp only [serveBurst, tryAcquire, RateLimitService.call,
        count429, List.countP_cons] at *
      simp [rateLimitResponse, ih]
    | succ t' =>
      have hne : ((inner r).status == 429) = false :=
        beq_eq_false_iff_ne.mpr (h r)
      simp only [serveBurst, tryAcquire, RateLimitService.call,
        count429, List.countP_cons] at *
      simp [h r, ih]
      omega

/-- C5: for capacity C and a burst of C+1 requests before any refill,
every sequentialisation of the concurrent atomic withdraw steps admits
exactly C requests and rejects at least one with 429; and no burst, of
any size and in any order, is ever admitted more than C times within the
window. The inner service is assumed not to answer 429 itself. -/
theorem rate_limiter_burst_bound (inner : Req → Response)
    (h : ∀ r, (inner r).status ≠ 429) (C : Nat) (reqs : List Req) :
    (reqs.length = C + 1 →
      admittedCount (serveBurst inner reqs C) = C ∧
      1 ≤ count429 (serveBurst inner reqs C)) ∧
    admittedCount (serveBurst inner reqs C) ≤ C := by
  constructor
  · intro hlen
    constructor
    · rw [serveBurst_admittedCount inner h reqs C, hlen]
      omega
    · rw [serveBurst_count429 inner h reqs C, hlen]
      omega
  · rw [serveBurst_admittedCount inner h reqs C]
    omega

/-- Witness for C5 at a concrete burst: capacity 2 and three concurrent
requests give exactly two admissions and at least one 429. -/
theorem rate_limiter_burst_bound_witness :
    admittedCount (serveBurst (fun _ => { status := 200, headers := [], body := "" })
        [{ headers := [], body := "" }, { headers := [], body := "" },
          { headers := [], body := "" }] 2) = 2 ∧
    1 ≤ count429 (serveBurst (fun _ => { status := 200, headers := [], body := "" })
        [{ headers := [], body := "" }, { headers := [], body := "" },
          { headers := [], body := "" }] 2) := by
  exact (rate_limiter_burst_bound (fun _ => { status := 200, headers := [], body := "" })
    (fun _ => (by decide : (200 : Nat) ≠ 429)) 2
    [{ headers := [], body := "" }, { headers := [], body := "" },
      { headers := [], body := "" }]).1 (by decide)

/-- C8: the default pipeline equals the error-normalisation layer applied
outermost around the composition of every other default layer — for every
request, the pipeline's response is the normalisation transform of the
response produced by the rest of the stack, whatever the other layers and
feature flags are. -/
theorem default_layers_json_error_outermost
    (catchPanic setReqId propagate traceL timeoutL compressionL corsL : Svc → Svc)
    (compressionOn corsOn : Bool) (env : Environment) (handler : Svc) (req : Req) :
    default_layers catchPanic setReqId propagate traceL timeoutL
        compressionL corsL compressionOn corsOn env handler req
      = jsonErrorTransform env
          (applyStack
            (innerLayerStack catchPanic setReqId propagate traceL timeoutL
              compressionL corsL compressionOn corsOn)
            handler req) := by
  simp [default_layers, applyStack, List.foldl_append, JsonErrorService.call]
